import Mathlib

/-!
Verification of the tiktok_scraper core logic against its design document.

Each definition below is a shallow embedding of one function of the
repository, translated from the Python source:

* `Video`, `applyFilters` — `src/tiktok_downloader/domains/tiktok/models.py`
  and `services.py` (`FilterService.apply_filters`);
* `Config`, `resolveSettingsFields`, `resolveArchivePath`, `resolveSettings`
  — `src/tiktok_downloader/main.py` and `domains/config/schemas.py`;
* `RawInfo`, `VideoMetadata`, `toDomain`, `fetchMetadataCore`
  — `domains/tiktok/repository.py` (`fetch_metadata`, `_to_domain`) and
  `domains/tiktok/schemas.py`;
* `buildDownloadOpts` — `domains/tiktok/repository.py` (`download_videos`
  together with `_get_ydl_opts`);
* `getUrlsToProcess`, `fetchLoop` — `main.py` (`_get_urls_to_process` and
  the fetch loop of `download_videos`);
* `loadFromPath` — `domains/config/repository.py`
  (`ConfigRepository.load_from_path`).

Python `Optional` values are `Option`, Python truthiness on optional
strings and integers is made explicit (`pyTruthyStr`, `pyTruthyInt`),
and Python exceptions are `Except`.
-/

namespace TikTokScraper

/-- Domain model `Video` from `domains/tiktok/models.py`: `id` and
`webpage_url` are required strings, the remaining fields are optional.
The dataclass defines no `upload_date` field. -/
structure Video where
  id : String
  webpage_url : String
  title : Option String := none
  like_count : Option Int := none
  view_count : Option Int := none
deriving DecidableEq, Repr

/-- Embedding of `FilterService.apply_filters` from
`domains/tiktok/services.py`: two successive list comprehensions, one per
supplied threshold.  The `process_after_date` branch is not modelled: every
call site of the repository passes it as `None` (its default), and the
`Video` model defines no `upload_date` attribute for it to read. -/
def applyFilters (videos : List Video) (min_likes min_views : Option Int) :
    List Video :=
  let fv := videos
  let fv := match min_likes with
    | none => fv
    | some m => fv.filter fun v =>
        match v.like_count with
        | none => false
        | some lc => decide (m ≤ lc)
  let fv := match min_views with
    | none => fv
    | some m => fv.filter fun v =>
        match v.view_count with
        | none => false
        | some vc => decide (m ≤ vc)
  fv

/-- Specification-side clause: min_likes absent, or like_count present and
at least min_likes. -/
def specLikeOk (min_likes : Option Int) (v : Video) : Bool :=
  match min_likes with
  | none => true
  | some m =>
    match v.like_count with
    | none => false
    | some lc => decide (m ≤ lc)

/-- Specification-side clause: min_views absent, or view_count present and
at least min_views. -/
def specViewOk (min_views : Option Int) (v : Video) : Bool :=
  match min_views with
  | none => true
  | some m =>
    match v.view_count with
    | none => false
    | some vc => decide (m ≤ vc)

/-- The survival predicate exactly as the specification phrases it: the
conjunction of the two threshold clauses. -/
def specSurvives (min_likes min_views : Option Int) (v : Video) : Bool :=
  specLikeOk min_likes v && specViewOk min_views v

/-- The `Config` Pydantic model from `domains/config/schemas.py`.  It
declares exactly these ten optional fields; in particular it declares no
`download_archive` field. -/
structure Config where
  output_path : Option String := none
  min_likes : Option Int := none
  min_views : Option Int := none
  transcripts : Option Bool := none
  transcript_language : Option String := none
  concurrent_downloads : Option Int := none
  min_sleep_interval : Option Int := none
  max_sleep_interval : Option Int := none
  cookies_from_browser : Option String := none
  cookies_file : Option String := none
deriving DecidableEq, Repr

/-- Config instance with every field absent (all defaults). -/
def defaultConfig : Config := {}

/-- Python truthiness of an `Optional[str]` value: `None` and the empty
string are falsy, every other string is truthy. -/
def pyTruthyStr : Option String → Bool
  | none => false
  | some s => s != ""

/-- Python truthiness of an `Optional[int]` value: `None` and `0` are
falsy, every other integer is truthy. -/
def pyTruthyInt : Option Int → Bool
  | none => false
  | some n => n != 0

/-- Python `a or b` on two `Optional[str]` values: `a` when truthy,
otherwise `b`. -/
def pyOrStr (a b : Option String) : Option String :=
  if pyTruthyStr a then a else b

/-- Python `a or d` where `a` is `Optional[str]` and `d` is a plain string
default: the value of `a` when truthy, otherwise `d`. -/
def pyOrStrD (a : Option String) (d : String) : String :=
  match a with
  | none => d
  | some s => if s = "" then d else s

/-- Python `a if a is not None else b` on optional values. -/
def ifNotNone {α : Type} (a b : Option α) : Option α :=
  match a with
  | some v => some v
  | none => b

/-- The contents of the `resolved_settings` dictionary built by
`_resolve_settings` in `main.py` just after the transcript block
(lines 54-70), before the archive-path step. -/
structure ResolvedSettings where
  output_path : String
  min_likes : Option Int
  min_views : Option Int
  concurrent_downloads : Option Int
  min_sleep_interval : Option Int
  max_sleep_interval : Option Int
  cookies_from_browser : Option String
  cookies_file : Option String
  transcript_language : Option String
deriving DecidableEq, Repr

/-- Embedding of the field-merging part of `_resolve_settings` in
`main.py` (the dictionary literal of lines 54-63 followed by the
transcript block of lines 65-70).  `transcript_language` is a plain
string because its Python parameter is annotated `str` with caller-side
default `'en-US'`; every other override is `Optional`. -/
def resolveSettingsFields (config : Config) (output_path : Option String)
    (min_likes min_views : Option Int) (download_transcripts : Option Bool)
    (transcript_language : String) (concurrent_downloads : Option Int)
    (min_sleep_interval max_sleep_interval : Option Int)
    (cookies_from_browser cookies_file : Option String) : ResolvedSettings :=
  let transcripts_enabled : Bool :=
    match download_transcripts with
    | some b => b
    | none =>
      match config.transcripts with
      | some b => b
      | none => false
  { output_path := pyOrStrD (pyOrStr output_path config.output_path) "."
    min_likes := ifNotNone min_likes config.min_likes
    min_views := ifNotNone min_views config.min_views
    concurrent_downloads := ifNotNone concurrent_downloads config.concurrent_downloads
    min_sleep_interval := ifNotNone min_sleep_interval config.min_sleep_interval
    max_sleep_interval := ifNotNone max_sleep_interval config.max_sleep_interval
    cookies_from_browser := pyOrStr cookies_from_browser config.cookies_from_browser
    cookies_file := pyOrStr cookies_file config.cookies_file
    transcript_language :=
      if transcripts_enabled then
        pyOrStr (some transcript_language) config.transcript_language
      else
        none }

/-- The attribute access `config.download_archive` performed by
`_resolve_settings` (main.py line 75).  The `Config` model of
`domains/config/schemas.py` defines no `download_archive` field, so at
run time Python raises `AttributeError`; the access never yields a
value. -/
def configGetDownloadArchive (_config : Config) : Except String (Option String) :=
  Except.error "AttributeError: Config object has no attribute download_archive"

/-- The fixed archive filename used by `_resolve_archive_path`. -/
def archiveFileName : String := ".tiktok-downloader-archive.txt"

/-- Model of Python `str(Path(a) / b)` for the directory strings this
program uses: an empty or `.` left side yields `b`, otherwise trailing
slashes of `a` are dropped and the parts are joined with a single
slash. -/
def pathJoin (a b : String) : String :=
  if a = "" ∨ a = "." then b
  else
    let stripped := (a.toList.reverse.dropWhile (· = '/')).reverse.asString
    if stripped = "" then "/" ++ b else stripped ++ "/" ++ b

/-- Embedding of `_resolve_archive_path` from `main.py`: the override
path when truthy, else the config path when truthy, else the resolved
output path joined with the fixed archive filename. -/
def resolveArchivePath (download_archive config_archive : Option String)
    (output_path : String) : String :=
  pyOrStrD (pyOrStr download_archive config_archive)
    (pathJoin output_path archiveFileName)

/-- Embedding of the whole of `_resolve_settings` from `main.py`: the
merged fields plus the archive-path step, which reads the non-existent
`config.download_archive` attribute and therefore raises. -/
def resolveSettings (config : Config) (output_path : Option String)
    (min_likes min_views : Option Int) (download_transcripts : Option Bool)
    (transcript_language : String) (concurrent_downloads : Option Int)
    (min_sleep_interval max_sleep_interval : Option Int)
    (cookies_from_browser cookies_file : Option String)
    (download_archive : Option String) :
    Except String (ResolvedSettings × String) := do
  let fields := resolveSettingsFields config output_path min_likes min_views
    download_transcripts transcript_language concurrent_downloads
    min_sleep_interval max_sleep_interval cookies_from_browser cookies_file
  let config_archive ← configGetDownloadArchive config
  pure (fields, resolveArchivePath download_archive config_archive fields.output_path)

/-- Specification-side three-tier merge for the optional non-string
fields: a non-absent override is used as supplied (so an explicit `0` or
`false` wins), else the config value (which may itself be absent —
absence means "no constraint", there is no further default). -/
def specOptTier {α : Type} (override config_val : Option α) : Option α :=
  match override with
  | some v => some v
  | none => config_val

/-- The merge the code actually performs on the optional string fields,
stated as a case analysis: an empty-string override is treated as absent
and falls back to the config value. -/
def specStrTier (override config_val : Option String) : Option String :=
  match override with
  | some s => if s = "" then config_val else some s
  | none => config_val

/-- The merge the code actually performs on `output_path`, stated as a
case analysis: the first of override and config value that is a non-empty
string, else the default. -/
def specStrTierD (override config_val : Option String) (dflt : String) : String :=
  match specStrTier override config_val with
  | some s => if s = "" then dflt else s
  | none => dflt

/-- Specification-side stage one of the transcript logic: enabled iff the
override says so, else the config says so, else disabled. -/
def specTranscriptsEnabled (override config_val : Option Bool) : Bool :=
  match override with
  | some b => b
  | none =>
    match config_val with
    | some b => b
    | none => false

/-- The transcript-language merge the code actually performs when
transcripts are enabled: the supplied language string when non-empty,
else the config value (possibly absent). -/
def specLangStage (override : String) (config_val : Option String) : Option String :=
  if override = "" then config_val else some override

/-- One raw item of an engine response, as consumed by `fetch_metadata` in
`domains/tiktok/repository.py`: a dictionary read with `.get`, so every
field is optional. -/
structure RawInfo where
  id : Option String := none
  title : Option String := none
  like_count : Option Int := none
  view_count : Option Int := none
  webpage_url : Option String := none
  upload_date : Option String := none
deriving DecidableEq, Repr

/-- The `VideoMetadata` Pydantic schema from `domains/tiktok/schemas.py`:
`id` and `webpage_url` are required strings, the rest optional.  It
declares no `upload_date` field. -/
structure VideoMetadata where
  id : String
  webpage_url : String
  title : Option String := none
  like_count : Option Int := none
  view_count : Option Int := none
deriving DecidableEq, Repr

/-- Pydantic validation of one raw item into `VideoMetadata`
(repository.py lines 94-100): fails when the required `id` or
`webpage_url` is missing; the `upload_date` keyword passed by the code is
an extra field and is ignored by Pydantic. -/
def videoMetadataOfRaw (r : RawInfo) : Except String VideoMetadata :=
  match r.id, r.webpage_url with
  | some i, some w =>
    Except.ok { id := i, webpage_url := w, title := r.title,
                like_count := r.like_count, view_count := r.view_count }
  | _, _ => Except.error "ValidationError: id and webpage_url are required"

/-- Embedding of `TikTokRepository._to_domain`: its first statement
evaluates `schema.upload_date`, but `VideoMetadata` defines no
`upload_date` field, so Python raises `AttributeError` before any `Video`
is constructed (the `Video` constructor call would also fail, since it
passes an `upload_date` keyword the frozen dataclass does not accept). -/
def toDomain (_schema : VideoMetadata) : Except String Video :=
  Except.error "AttributeError: VideoMetadata object has no attribute upload_date"

/-- The per-item loop of `fetch_metadata` (repository.py lines 91-105):
falsy items are skipped, each remaining item is validated and converted
inside a try/except, and a failure of either step skips that one item. -/
def processEntries : List (Option RawInfo) → List Video
  | [] => []
  | none :: rest => processEntries rest
  | some r :: rest =>
    match videoMetadataOfRaw r >>= toDomain with
    | Except.ok v => v :: processEntries rest
    | Except.error _ => processEntries rest

/-- An engine response as consumed by `fetch_metadata`: either a single
item (no `entries` key) or a listing with a (possibly empty) list of
entries, each of which may be `None`. -/
inductive EngineResponse where
  | single (r : RawInfo)
  | listing (entries : List (Option RawInfo))
deriving DecidableEq, Repr

/-- The response normalization of `fetch_metadata` (repository.py lines
88-90): `video_list = info.get('entries', [])`, and when that list is
falsy while `info` itself is truthy, `video_list = [info]`.  A single
item becomes a one-element list; a listing whose entries list is empty
falls into the same branch, so the listing dictionary itself (which has
no `id` or `webpage_url`) becomes the only raw item. -/
def fetchNormalize : EngineResponse → List (Option RawInfo)
  | EngineResponse.single r => [some r]
  | EngineResponse.listing entries =>
    if entries.isEmpty then [some {}] else entries

/-- Embedding of the record-producing core of
`TikTokRepository.fetch_metadata`: normalize the engine response, then
run the per-item conversion loop. -/
def fetchMetadataCore (resp : EngineResponse) : List Video :=
  processEntries (fetchNormalize resp)

/-- Values stored in a yt-dlp options dictionary. -/
inductive OptVal where
  | str (s : String)
  | int (n : Int)
  | bool (b : Bool)
  | strList (l : List String)
deriving DecidableEq, Repr

/-- Embedding of the options dictionary built by
`TikTokRepository.download_videos` (repository.py lines 136-157) on top
of `_get_ydl_opts`: base options, cookie options when truthy, output
template and thumbnail capture, subtitle options when a transcript
language is truthy, a concurrency entry when `concurrent_downloads > 1`,
and sleep-interval entries when those settings are truthy.  The keys are
listed in insertion order. -/
def buildDownloadOpts (output_path : String)
    (transcript_language : Option String) (concurrent_downloads : Int)
    (min_sleep_interval max_sleep_interval : Option Int)
    (cookies_from_browser cookies_file : Option String) :
    List (String × OptVal) :=
  [("quiet", OptVal.bool true)] ++
  (match cookies_from_browser with
    | some s => if s = "" then [] else [("cookies_from_browser", OptVal.str s)]
    | none => []) ++
  (match cookies_file with
    | some s => if s = "" then [] else [("cookiefile", OptVal.str s)]
    | none => []) ++
  [("outtmpl", OptVal.str (output_path ++ "/%(title)s [%(id)s].%(ext)s")),
   ("writethumbnail", OptVal.bool true)] ++
  (match transcript_language with
    | some s =>
      if s = "" then []
      else [("writesubtitles", OptVal.bool true),
            ("writeautomaticsub", OptVal.bool true),
            ("subtitleslangs", OptVal.strList [s])]
    | none => []) ++
  (if concurrent_downloads > 1 then
    [("concurrent_fragment_downloads", OptVal.int concurrent_downloads)]
  else []) ++
  (match min_sleep_interval with
    | some n => if n = 0 then [] else [("sleep_interval", OptVal.int n)]
    | none => []) ++
  (match max_sleep_interval with
    | some n => if n = 0 then [] else [("max_sleep_interval", OptVal.int n)]
    | none => [])

/-- The URL list dispatched by `TikTokRepository.download_videos`
(repository.py line 159): the `webpage_url` of every record, in order. -/
def downloadDispatchUrls (videos : List Video) : List String :=
  videos.map (fun v => v.webpage_url)

/-- The parameter names accepted by `TikTokRepository.download_videos`
(repository.py lines 109-118), besides `self`. -/
def downloadVideosAcceptedParams : List String :=
  ["videos", "output_path", "transcript_language", "concurrent_downloads",
   "min_sleep_interval", "max_sleep_interval", "cookies_from_browser",
   "cookies_file"]

/-- The keyword-argument names used by `main.download_videos` when it
calls `repo.download_videos` (main.py lines 209-219). -/
def mainDispatchKeywordArgs : List String :=
  ["videos", "output_path", "transcript_language", "concurrent_downloads",
   "min_sleep_interval", "max_sleep_interval", "cookies_from_browser",
   "cookies_file", "download_archive_path"]

/-- Whitespace characters removed by Python `str.strip`. -/
def isStripped (c : Char) : Bool :=
  c == ' ' || c == '\t' || c == '\r' || c == '\n'

/-- Python `str.strip()`: remove leading and trailing whitespace. -/
def pyStrip (s : String) : String :=
  (((s.toList.dropWhile isStripped).reverse.dropWhile isStripped).reverse).asString

/-- Helper for `splitLines`: accumulate the current line (reversed) while
walking the character list. -/
def splitLinesAux : List Char → List Char → List String
  | [], acc => [acc.reverse.asString]
  | '\n' :: rest, acc => acc.reverse.asString :: splitLinesAux rest []
  | c :: rest, acc => splitLinesAux rest (c :: acc)

/-- Split a file's text content at newlines; together with `pyStrip` and
the blank-line filter this models Python's `for line in f` followed by
`line.strip()`. -/
def splitLines (s : String) : List String :=
  splitLinesAux s.toList []

/-- Embedding of `_get_urls_to_process` from `main.py`: the second
argument is the content of the batch file when one was given (the code
opens the truthy `from_file` path and iterates its lines).  Lines are
stripped, falsy (blank) stripped lines are dropped, file order is kept; a
truthy `tiktok_url` is appended afterwards; an empty combined list raises
`ValueError`. -/
def getUrlsToProcess (tiktok_url : Option String)
    (from_file_content : Option String) : Except String (List String) :=
  let urls_from_file : List String :=
    match from_file_content with
    | none => []
    | some content =>
      ((splitLines content).map pyStrip).filter (fun l => l ≠ "")
  let urls_to_process :=
    urls_from_file ++
      (match tiktok_url with
        | some u => if u = "" then [] else [u]
        | none => [])
  if urls_to_process.isEmpty then
    Except.error "You must provide either a tiktok_url or from_file."
  else
    Except.ok urls_to_process

/-- The combined URL list exactly as claim C7 words it: the batch lines
trimmed with blanks skipped, followed by the single URL whenever one is
given. -/
def specCombinedUrls (tiktok_url : Option String)
    (from_file_content : Option String) : List String :=
  (match from_file_content with
    | none => []
    | some content =>
      ((splitLines content).map pyStrip).filter (fun l => l ≠ "")) ++
  (match tiktok_url with
    | some u => [u]
    | none => [])

/-- The single-URL argument with an empty string treated as not given —
this is exactly the amendment claim C7 needs, since the code guards the
append with Python truthiness (`if tiktok_url:`). -/
def dropEmptySingle (tiktok_url : Option String) : Option String :=
  match tiktok_url with
  | some u => if u = "" then none else some u
  | none => none

/-- The fetch loop of `main.download_videos` (main.py lines 181-194):
each URL's fetch runs inside a try/except; a failed fetch contributes
nothing and the loop continues with the next URL. -/
def fetchLoop (fetch : String → Except String (List Video)) :
    List String → List Video
  | [] => []
  | url :: rest =>
    (match fetch url with
      | Except.ok vs => vs
      | Except.error _ => []) ++ fetchLoop fetch rest

/-- The fetch-then-filter portion of `main.download_videos` (main.py
lines 181-202): accumulate every URL's fetch result, then apply the
filter service. -/
def runFetchAndFilter (fetch : String → Except String (List Video))
    (urls : List String) (min_likes min_views : Option Int) : List Video :=
  applyFilters (fetchLoop fetch urls) min_likes min_views

/-- A parsed `[defaults]` INI section: key/value pairs of strings. -/
def IniSection : Type := List (String × String)

/-- Python `int(s)` as used by `ConfigParser.getint`: optional
surrounding whitespace, an optional sign, then at least one digit;
anything else raises `ValueError`. -/
def pyInt (s : String) : Option Int :=
  let digitsToNat : List Char → Option Nat := fun l =>
    if l ≠ [] ∧ l.all Char.isDigit then
      some (l.foldl (fun acc c => acc * 10 + (c.toNat - 48)) 0)
    else
      none
  match s.trim.toList with
  | '-' :: rest => (digitsToNat rest).map (fun n => -(n : Int))
  | '+' :: rest => (digitsToNat rest).map (fun n => (n : Int))
  | l => (digitsToNat l).map (fun n => (n : Int))

/-- `ConfigParser.getboolean`: the lower-cased value must be one of the
recognized boolean literals, anything else raises `ValueError`. -/
def pyBool (s : String) : Option Bool :=
  let t := s.toLower
  if t = "1" ∨ t = "yes" ∨ t = "true" ∨ t = "on" then some true
  else if t = "0" ∨ t = "no" ∨ t = "false" ∨ t = "off" then some false
  else none

/-- Read an optional integer key of the section: absent keys stay absent,
a present value that fails to parse is a fatal error. -/
def getIntKey (sec : IniSection) (key : String) : Except Unit (Option Int) :=
  match sec.lookup key with
  | none => Except.ok none
  | some v =>
    match pyInt v with
    | some n => Except.ok (some n)
    | none => Except.error ()

/-- Read an optional boolean key of the section: absent keys stay absent,
a present value that fails to parse is a fatal error. -/
def getBoolKey (sec : IniSection) (key : String) : Except Unit (Option Bool) :=
  match sec.lookup key with
  | none => Except.ok none
  | some v =>
    match pyBool v with
    | some b => Except.ok (some b)
    | none => Except.error ()

/-- Embedding of `ConfigRepository.load_from_path` from
`domains/config/repository.py`.  `none` stands for a missing file or a
file without a `[defaults]` section; otherwise the section is read key by
key.  The code reads exactly eight keys — `output_path`, `min_likes`,
`min_views`, `transcripts`, `transcript_language`, `concurrent_downloads`,
`min_sleep_interval`, `max_sleep_interval` — and never reads
`cookies_from_browser`, `cookies_file` or `download_archive` from the
file, so those `Config` fields keep their `None` defaults. -/
def loadFromPath (iniDefaults : Option IniSection) : Except Unit Config :=
  match iniDefaults with
  | none => Except.ok defaultConfig
  | some sec => do
    let min_likes ← getIntKey sec "min_likes"
    let min_views ← getIntKey sec "min_views"
    let transcripts ← getBoolKey sec "transcripts"
    let concurrent_downloads ← getIntKey sec "concurrent_downloads"
    let min_sleep_interval ← getIntKey sec "min_sleep_interval"
    let max_sleep_interval ← getIntKey sec "max_sleep_interval"
    Except.ok
      { output_path := sec.lookup "output_path"
        min_likes := min_likes
        min_views := min_views
        transcripts := transcripts
        transcript_language := sec.lookup "transcript_language"
        concurrent_downloads := concurrent_downloads
        min_sleep_interval := min_sleep_interval
        max_sleep_interval := max_sleep_interval
        cookies_from_browser := none
        cookies_file := none }

/-- The section has the given key with a value that does not parse as an
integer. -/
def badIntKey (sec : IniSection) (key : String) : Bool :=
  match sec.lookup key with
  | none => false
  | some v => (pyInt v).isNone

/-- The section has the given key with a value that does not parse as a
boolean. -/
def badBoolKey (sec : IniSection) (key : String) : Bool :=
  match sec.lookup key with
  | none => false
  | some v => (pyBool v).isNone

/-- Specification-side description of the loader on a present section,
phrased as a global check followed by a pure build: if any recognized
integer or boolean key is present but unparsable the load fails,
otherwise every field is the parsed value of its key (absent when the key
is absent), and the cookie fields are always absent. -/
def specLoad (sec : IniSection) : Except Unit Config :=
  if badIntKey sec "min_likes" ∨ badIntKey sec "min_views" ∨
      badBoolKey sec "transcripts" ∨ badIntKey sec "concurrent_downloads" ∨
      badIntKey sec "min_sleep_interval" ∨ badIntKey sec "max_sleep_interval" then
    Except.error ()
  else
    Except.ok
      { output_path := sec.lookup "output_path"
        min_likes := (sec.lookup "min_likes").bind pyInt
        min_views := (sec.lookup "min_views").bind pyInt
        transcripts := (sec.lookup "transcripts").bind pyBool
        transcript_language := sec.lookup "transcript_language"
        concurrent_downloads := (sec.lookup "concurrent_downloads").bind pyInt
        min_sleep_interval := (sec.lookup "min_sleep_interval").bind pyInt
        max_sleep_interval := (sec.lookup "max_sleep_interval").bind pyInt
        cookies_from_browser := none
        cookies_file := none }

/-- Claim C1: for every list of video records and every pair of optional
thresholds, `apply_filters` returns exactly the records, in input order,
satisfying the specification's conjunctive predicate; a record whose
filtered-on field is absent is excluded by that filter. -/
theorem c1_filter_is_spec_predicate (videos : List Video)
    (min_likes min_views : Option Int) :
    applyFilters videos min_likes min_views =
      videos.filter (specSurvives min_likes min_views) := by
  show applyFilters videos min_likes min_views =
    videos.filter fun v => specSurvives min_likes min_views v
  cases min_likes <;> cases min_views <;>
    simp [applyFilters, specSurvives, specLikeOk, specViewOk,
      List.filter_filter, Bool.and_comm]

theorem pyOrStr_eq_specStrTier (a b : Option String) :
    pyOrStr a b = specStrTier a b := by
  cases a with
  | none => simp [pyOrStr, pyTruthyStr, specStrTier]
  | some s =>
    by_cases h : s = "" <;> simp [pyOrStr, pyTruthyStr, specStrTier, h]

theorem pyOrStrD_specStrTier (a b : Option String) (d : String) :
    pyOrStrD (specStrTier a b) d = specStrTierD a b d := by
  cases h : specStrTier a b <;> simp [pyOrStrD, specStrTierD, h]

/-- Claim C2 (amended): per-field precedence of `_resolve_settings`.  For
the optional integer and boolean fields a present override wins even when
it is `0` or `false`; for the string-valued fields (`output_path`,
`cookies_from_browser`, `cookies_file`) the merge is by Python
truthiness, so an empty-string override falls back to the config value
and then to the default. -/
theorem c2_per_field_precedence (c : Config) (oP : Option String)
    (mL mV : Option Int) (dT : Option Bool) (tL : String)
    (cD mnS mxS : Option Int) (cfb cf : Option String) :
    (resolveSettingsFields c oP mL mV dT tL cD mnS mxS cfb cf).output_path =
        specStrTierD oP c.output_path "." ∧
    (resolveSettingsFields c oP mL mV dT tL cD mnS mxS cfb cf).min_likes =
        specOptTier mL c.min_likes ∧
    (resolveSettingsFields c oP mL mV dT tL cD mnS mxS cfb cf).min_views =
        specOptTier mV c.min_views ∧
    (resolveSettingsFields c oP mL mV dT tL cD mnS mxS cfb cf).concurrent_downloads =
        specOptTier cD c.concurrent_downloads ∧
    (resolveSettingsFields c oP mL mV dT tL cD mnS mxS cfb cf).min_sleep_interval =
        specOptTier mnS c.min_sleep_interval ∧
    (resolveSettingsFields c oP mL mV dT tL cD mnS mxS cfb cf).max_sleep_interval =
        specOptTier mxS c.max_sleep_interval ∧
    (resolveSettingsFields c oP mL mV dT tL cD mnS mxS cfb cf).cookies_from_browser =
        specStrTier cfb c.cookies_from_browser ∧
    (resolveSettingsFields c oP mL mV dT tL cD mnS mxS cfb cf).cookies_file =
        specStrTier cf c.cookies_file := by
  refine ⟨?_, ?_, ?_, ?_, ?_, ?_, ?_, ?_⟩
  · show pyOrStrD (pyOrStr oP c.output_path) "." = specStrTierD oP c.output_path "."
    rw [pyOrStr_eq_specStrTier, pyOrStrD_specStrTier]
  · cases mL <;> rfl
  · cases mV <;> rfl
  · cases cD <;> rfl
  · cases mnS <;> rfl
  · cases mxS <;> rfl
  · exact pyOrStr_eq_specStrTier cfb c.cookies_from_browser
  · exact pyOrStr_eq_specStrTier cf c.cookies_file

/-- Claim C2 counterexample: the claim as stated requires a present but
falsy override — here the empty string — to win over the config value,
yet `_resolve_settings` merges the string fields with Python `or`, so an
empty-string `cookies_from_browser` override loses to the config value
`firefox`. -/
theorem c2_counterexample :
    (resolveSettingsFields { cookies_from_browser := some "firefox" }
        none none none none "en-US" none none none (some "") none).cookies_from_browser
      = some "firefox" ∧ some "firefox" ≠ (some "" : Option String) := by
  refine ⟨rfl, ?_⟩
  decide

theorem pyOrStr_some_eq_specLangStage (s : String) (b : Option String) :
    pyOrStr (some s) b = specLangStage s b := by
  by_cases h : s = "" <;> simp [pyOrStr, pyTruthyStr, specLangStage, h]

/-- Claim C3 (amended): transcript settings resolve in two stages.  Stage
one resolves transcripts-enabled with precedence override > config >
default-false; if it is disabled, the resolved `transcript_language` is
absent regardless of any language override or config value.  If enabled,
the language is the supplied string when non-empty, else the config
value; the `en-US` default is supplied by the callers as the parameter
default, not by the resolver, so the resolved language can be absent
when the supplied string is empty and the config has no language. -/
theorem c3_transcript_two_stage (c : Config) (oP : Option String)
    (mL mV : Option Int) (dT : Option Bool) (tL : String)
    (cD mnS mxS : Option Int) (cfb cf : Option String) :
    (resolveSettingsFields c oP mL mV dT tL cD mnS mxS cfb cf).transcript_language =
      (if specTranscriptsEnabled dT c.transcripts then
        specLangStage tL c.transcript_language
      else
        none) := by
  have h := pyOrStr_some_eq_specLangStage tL c.transcript_language
  cases dT with
  | some b =>
    cases b <;> simp [resolveSettingsFields, specTranscriptsEnabled, h]
  | none =>
    cases hc : c.transcripts with
    | none => simp [resolveSettingsFields, specTranscriptsEnabled, hc]
    | some b =>
      cases b <;> simp [resolveSettingsFields, specTranscriptsEnabled, hc, h]

/-- Claim C3 counterexample: with transcripts enabled, an empty-string
language override and no config language, the resolver yields an absent
language — under the claimed three-tier precedence with default `en-US`
the result would be a present value. -/
theorem c3_counterexample :
    (resolveSettingsFields defaultConfig none none none (some true) ""
        none none none none none).transcript_language = none ∧
    (none : Option String) ≠ some "en-US" ∧ (none : Option String) ≠ some "" := by
  refine ⟨rfl, ?_, ?_⟩ <;> decide

theorem processEntries_eq_nil (entries : List (Option RawInfo)) :
    processEntries entries = [] := by
  induction entries with
  | nil => rfl
  | cons e rest ih =>
    cases e with
    | none => simpa [processEntries] using ih
    | some r =>
      cases h : videoMetadataOfRaw r with
      | ok s => simpa [processEntries, h, Bind.bind, Except.bind, toDomain] using ih
      | error msg => simpa [processEntries, h, Bind.bind, Except.bind] using ih

/-- Claim C4: the fetcher does normalize and skip as claimed, but its
conversion step fails on every item — `_to_domain` reads
`schema.upload_date`, a field `VideoMetadata` does not define, and would
pass an `upload_date` keyword the `Video` dataclass does not accept — so
the claimed batch of one well-formed entry, one entry missing `id`, and
one well-formed entry yields the empty list, not a two-element list; in
fact every engine response yields the empty list. -/
theorem c4_fetch_converts_nothing :
    fetchMetadataCore (EngineResponse.listing
      [some { id := some "123", title := some "Good Video",
              like_count := some 1, view_count := some 1,
              webpage_url := some "u1" },
       some { title := some "Malformed Video" },
       some { id := some "789", title := some "Another Good Video",
              like_count := some 2, view_count := some 2,
              webpage_url := some "u3" }]) = [] ∧
    ∀ resp : EngineResponse, fetchMetadataCore resp = [] := by
  refine ⟨?_, fun resp => ?_⟩
  · exact processEntries_eq_nil _
  · exact processEntries_eq_nil _

/-- Claim C5: the dispatcher never places the resolved archive path into
the engine options — no options key mentions the archive for any input —
and the call `main.download_videos` makes passes a
`download_archive_path` keyword that `TikTokRepository.download_videos`
does not accept, so the dispatch raises `TypeError` instead of
downloading with an archive.  The URL-list half of the claim does hold:
the dispatched URLs are the `webpage_url` of every surviving record in
filtered order. -/
theorem c5_dispatch_archive_missing :
    ("download_archive_path" ∈ mainDispatchKeywordArgs ∧
      "download_archive_path" ∉ downloadVideosAcceptedParams) ∧
    (∀ (oP : String) (tL : Option String) (cD : Int)
        (mnS mxS : Option Int) (cfb cf : Option String),
      "download_archive" ∉
        (buildDownloadOpts oP tL cD mnS mxS cfb cf).map Prod.fst) ∧
    (∀ videos : List Video,
      downloadDispatchUrls videos = videos.map Video.webpage_url) := by
  refine ⟨⟨?_, ?_⟩, ?_, fun videos => rfl⟩
  · decide
  · decide
  · intro oP tL cD mnS mxS cfb cf
    cases cfb <;> cases cf <;> cases tL <;> cases mnS <;> cases mxS <;>
      simp [buildDownloadOpts]

/-- Claim C6: `_resolve_settings` can never produce a resolved archive
path, because its archive step reads `config.download_archive` and the
`Config` model defines no such field — Python raises `AttributeError` on
every call, including the claimed scenario (output path `/out`, no
explicit or config archive path).  The helper `_resolve_archive_path`,
taken alone, does implement the claimed fallback: with output path
`/out` and both archive arguments absent it yields `/out` joined with
the fixed archive filename. -/
theorem c6_archive_resolution_crashes :
    resolveSettings defaultConfig (some "/out") none none none "en-US"
        none none none none none none =
      Except.error "AttributeError: Config object has no attribute download_archive" ∧
    resolveArchivePath none none "/out" = "/out/.tiktok-downloader-archive.txt" := by
  exact ⟨rfl, rfl⟩

/-- Claim C7 (amended): the URL collector returns the batch file's lines
trimmed of whitespace with blank lines skipped, in file order, followed
by the single URL when one is given and non-empty (an empty-string single
URL is treated by the code's truthiness guard as not given), and it fails
with the usage error exactly when that combined list is empty; in
particular batch content "a\n\nb\n" plus single URL "c" yields
["a", "b", "c"] in that order. -/
theorem c7_url_collector (tiktok_url from_file_content : Option String) :
    getUrlsToProcess tiktok_url from_file_content =
      (if (specCombinedUrls (dropEmptySingle tiktok_url) from_file_content).isEmpty
      then Except.error "You must provide either a tiktok_url or from_file."
      else Except.ok (specCombinedUrls (dropEmptySingle tiktok_url) from_file_content)) ∧
    getUrlsToProcess (some "c") (some "a\n\nb\n") = Except.ok ["a", "b", "c"] := by
  refine ⟨?_, rfl⟩
  cases tiktok_url with
  | none => rfl
  | some u =>
    by_cases h : u = "" <;>
      simp [getUrlsToProcess, specCombinedUrls, dropEmptySingle, h]

/-- Claim C7 counterexample: with a single URL supplied as the empty
string and no batch file, the claimed combined result is the one-element
list containing that URL, which is non-empty, so the claim demands
success — but the code's truthiness guard drops the empty string and
raises the usage error. -/
theorem c7_counterexample :
    getUrlsToProcess (some "") none =
      Except.error "You must provide either a tiktok_url or from_file." ∧
    specCombinedUrls (some "") none ≠ [] := by
  refine ⟨rfl, ?_⟩
  decide

theorem fetchLoop_eq_successes (fetch : String → Except String (List Video))
    (urls : List String) :
    fetchLoop fetch urls =
      (urls.filterMap fun u => (fetch u).toOption).flatten := by
  induction urls with
  | nil => rfl
  | cons u rest ih =>
    cases h : fetch u with
    | ok vs => simp [fetchLoop, h, Except.toOption, ih]
    | error e => simp [fetchLoop, h, Except.toOption, ih]

/-- Claim C8: a failed fetch for one URL contributes nothing and the loop
continues in order, so the run's overall result is the concatenation of
the successful URLs' fetch results, in collector order, with the filter
applied. -/
theorem c8_per_url_failure_recovered
    (fetch : String → Except String (List Video)) (urls : List String)
    (min_likes min_views : Option Int) :
    runFetchAndFilter fetch urls min_likes min_views =
      applyFilters ((urls.filterMap fun u => (fetch u).toOption).flatten)
        min_likes min_views := by
  unfold runFetchAndFilter
  rw [fetchLoop_eq_successes]

theorem getIntKey_eq (sec : IniSection) (key : String) :
    getIntKey sec key =
      if badIntKey sec key then Except.error ()
      else Except.ok ((sec.lookup key).bind pyInt) := by
  cases h : sec.lookup key with
  | none => simp [getIntKey, badIntKey, h]
  | some v => cases hp : pyInt v <;> simp [getIntKey, badIntKey, h, hp]

theorem getBoolKey_eq (sec : IniSection) (key : String) :
    getBoolKey sec key =
      if badBoolKey sec key then Except.error ()
      else Except.ok ((sec.lookup key).bind pyBool) := by
  cases h : sec.lookup key with
  | none => simp [getBoolKey, badBoolKey, h]
  | some v => cases hp : pyBool v <;> simp [getBoolKey, badBoolKey, h, hp]

/-- Claim C9 (amended): a missing file or missing section yields an
all-absent record without error, a present recognized key that fails to
parse as its type is a fatal error, and the loader reads exactly the
eight keys `output_path`, `min_likes`, `min_views`, `transcripts`,
`transcript_language`, `concurrent_downloads`, `min_sleep_interval`,
`max_sleep_interval`; the keys `cookies_from_browser`, `cookies_file` and
`download_archive` claimed as recognized are never read (the first two
fields stay absent whatever the file contains, and the `Config` record
has no `download_archive` field at all). -/
theorem c9_config_loader (iniDefaults : Option IniSection) :
    loadFromPath none = Except.ok defaultConfig ∧
    (∀ sec : IniSection, loadFromPath (some sec) = specLoad sec) ∧
    (loadFromPath iniDefaults).map Config.cookies_from_browser ≠
        Except.ok (some "chrome") := by
  have hmain : ∀ sec : IniSection, loadFromPath (some sec) = specLoad sec := by
    intro sec
    simp only [loadFromPath, getIntKey_eq, getBoolKey_eq, specLoad]
    by_cases h1 : badIntKey sec "min_likes" <;>
      by_cases h2 : badIntKey sec "min_views" <;>
        by_cases h3 : badBoolKey sec "transcripts" <;>
          by_cases h4 : badIntKey sec "concurrent_downloads" <;>
            by_cases h5 : badIntKey sec "min_sleep_interval" <;>
              by_cases h6 : badIntKey sec "max_sleep_interval" <;>
                simp [h1, h2, h3, h4, h5, h6, Bind.bind, Except.bind]
  refine ⟨rfl, hmain, ?_⟩
  cases iniDefaults with
  | none => simp [loadFromPath, defaultConfig, Except.map]
  | some sec =>
    rw [hmain sec]
    unfold specLoad
    split
    · simp [Except.map]
    · simp [Except.map]

/-- Claim C9 counterexample: a `[defaults]` section containing only
`cookies_from_browser = chrome` loads to the all-absent record — the
loader never reads that key, while the claim says every recognized key
present in the section, `cookies_from_browser` included, is read into the
loaded record. -/
theorem c9_counterexample :
    loadFromPath (some [("cookies_from_browser", "chrome")]) =
      Except.ok defaultConfig ∧
    defaultConfig.cookies_from_browser = none ∧
    (none : Option String) ≠ some "chrome" := by
  refine ⟨rfl, rfl, ?_⟩
  decide

/-- Claim C10: in the dispatcher's option construction a sleep-interval
bound equal to 0 is treated identically to an absent bound — the
constructed options are the same dictionary, and it contains no entry for
that bound. -/
theorem c10_zero_sleep_interval_dropped (oP : String) (tL : Option String)
    (cD : Int) (mnS mxS : Option Int) (cfb cf : Option String) :
    buildDownloadOpts oP tL cD (some 0) mxS cfb cf =
      buildDownloadOpts oP tL cD none mxS cfb cf ∧
    buildDownloadOpts oP tL cD mnS (some 0) cfb cf =
      buildDownloadOpts oP tL cD mnS none cfb cf ∧
    "sleep_interval" ∉
      (buildDownloadOpts oP tL cD (some 0) mxS cfb cf).map Prod.fst ∧
    "max_sleep_interval" ∉
      (buildDownloadOpts oP tL cD mnS (some 0) cfb cf).map Prod.fst := by
  refine ⟨?_, ?_, ?_, ?_⟩
  · simp [buildDownloadOpts]
  · simp [buildDownloadOpts]
  · cases cfb <;> cases cf <;> cases tL <;> cases mxS <;>
      simp [buildDownloadOpts]
  · cases cfb <;> cases cf <;> cases tL <;> cases mnS <;>
      simp [buildDownloadOpts]

end TikTokScraper
